import Mathlib

/-!
Shallow embedding of the concurrency core of file-flow-service (Go).

Conventions of the embedding:
- Go `time.Time` values are modelled as `Int` nanosecond counts; the Go zero
  time `time.Time{}` is `0`.  `time.Duration` is likewise an `Int`.
- Go `float64` fields that the verified operations only ever assign exact
  constants to (`Progress`) are modelled as `Rat`.
- The task registry `map[string]*TaskInfo` is modelled as an association list
  `List (String × TaskInfo)`; map lookup is `List.find?` on the key.
- Functions returning Go `error` are modelled with `Except String`.
-/

set_option linter.unnecessarySeqFocus false

namespace FileFlow

/-- TaskInfo from internal/taskmanager/task_manager.go: ID, Name, Status,
Progress, CreatedAt, StartedAt, CompletedAt, Duration, WorkerID, Error,
Result. -/
structure TaskInfo where
  id : String
  name : String
  status : String
  progress : Rat
  createdAt : Int
  startedAt : Int
  completedAt : Int
  duration : Int
  workerID : Int
  error : String
  result : String
deriving DecidableEq, Repr

/-- The task manager registry `tasks map[string]*TaskInfo`, as an association
list keyed by task ID. -/
abbrev Registry := List (String × TaskInfo)

/-- Map lookup `task, exists := tm.tasks[taskID]` (first entry with the
key, as the association-list reading of the Go map access). -/
def lookupTask (tasks : Registry) (taskID : String) : Option TaskInfo :=
  match tasks with
  | [] => none
  | p :: rest => if p.1 == taskID then some p.2 else lookupTask rest taskID

/-- In-place mutation of the record held under `taskID` (the Go code mutates
the `*TaskInfo` behind the map entry). -/
def setTask (tasks : Registry) (taskID : String) (t : TaskInfo) : Registry :=
  tasks.map (fun p => if p.1 == taskID then (p.1, t) else p)

/-- CancelTask from task_manager.go: unknown ID returns the not-found error;
otherwise the thread pool's (no-op) CancelTask is invoked and the record is
mutated to `Status = "cancelled"`, `CompletedAt = time.Now()`,
`Duration = CompletedAt - CreatedAt`.  `now` stands for `time.Now()`. -/
def CancelTask (tasks : Registry) (now : Int) (taskID : String) :
    Except String Registry :=
  match lookupTask tasks taskID with
  | none => .error ("任务 " ++ taskID ++ " 不存在")
  | some task =>
      .ok (setTask tasks taskID
        { task with
          status := "cancelled"
          completedAt := now
          duration := now - task.createdAt })

/-- RetryTask from task_manager.go: unknown ID returns the not-found error;
otherwise the record is reset to `Status = "pending"`, `Progress = 0`,
`Error = ""`, `Result = ""`, `CompletedAt = time.Time{}`, `Duration = 0`. -/
def RetryTask (tasks : Registry) (taskID : String) : Except String Registry :=
  match lookupTask tasks taskID with
  | none => .error ("任务 " ++ taskID ++ " 不存在")
  | some task =>
      .ok (setTask tasks taskID
        { task with
          status := "pending"
          progress := 0
          error := ""
          result := ""
          completedAt := 0
          duration := 0 })

/-- The registry-derived part of TaskStats from task_manager.go. -/
structure TaskStats where
  totalTasks : Nat
  activeTasks : Nat
  completedTasks : Nat
  failedTasks : Nat
deriving DecidableEq, Repr

/-- One iteration of the `switch task.Status` loop in GetTaskStats. -/
def statsStep (stats : TaskStats) (t : TaskInfo) : TaskStats :=
  if t.status == "running" then
    { stats with activeTasks := stats.activeTasks + 1 }
  else if t.status == "completed" then
    { stats with completedTasks := stats.completedTasks + 1 }
  else if t.status == "failed" then
    { stats with failedTasks := stats.failedTasks + 1 }
  else stats

/-- GetTaskStats from task_manager.go, restricted to the registry-derived
fields: `TotalTasks = len(tm.tasks)` and one pass over the registry counting
`running` / `completed` / `failed` statuses. -/
def GetTaskStats (tasks : Registry) : TaskStats :=
  (tasks.map Prod.snd).foldl statsStep
    { totalTasks := tasks.length
      activeTasks := 0
      completedTasks := 0
      failedTasks := 0 }

/-- ThreadPool from the threadpool package (unnamed source part): the fields
relevant to construction, lifecycle and submission.  `queueClosed` models
whether `close(tp.taskQueue)` has run; `spawnedWorkers` counts worker
goroutines launched (only `Start` launches any). -/
structure ThreadPool where
  maxWorkers : Int
  taskTimeout : Int
  running : Bool
  queueClosed : Bool
  spawnedWorkers : Int
deriving DecidableEq, Repr

/-- NewThreadPool: rejects `maxWorkers <= 0` with a validation error,
otherwise returns a pool with `running = false`, an open queue, and no
worker goroutines started. -/
def NewThreadPool (maxWorkers taskTimeout : Int) : Except String ThreadPool :=
  if maxWorkers ≤ 0 then .error "最大工作线程数必须大于0"
  else .ok
    { maxWorkers := maxWorkers
      taskTimeout := taskTimeout
      running := false
      queueClosed := false
      spawnedWorkers := 0 }

/-- ThreadPool.Start: a no-op when already running, otherwise sets
`running = true` and launches `maxWorkers` worker goroutines. -/
def ThreadPool.Start (tp : ThreadPool) : ThreadPool :=
  if tp.running then tp
  else { tp with running := true, spawnedWorkers := tp.maxWorkers }

/-- ThreadPool.Stop: a no-op when not running; otherwise closes the task
queue (`close(tp.taskQueue)`), waits for the workers to drain, and sets
`running = false`. -/
def ThreadPool.Stop (tp : ThreadPool) : ThreadPool :=
  if !tp.running then tp
  else { tp with queueClosed := true, running := false }

/-- Outcome of one call to `ThreadPool.Submit`. -/
inductive SubmitOutcome where
  | delivered
  | dropped
  | panicked
deriving DecidableEq, Repr

/-- ThreadPool.Submit is a `select` with a `default` branch on the
unbuffered channel `tp.taskQueue`.  Go semantics of that statement: if the
channel is closed the send case is chosen and the send panics; otherwise the
send case can only proceed when some worker is currently blocked receiving
(`receiverReady`), and when none is, the `default` branch runs and the task
is dropped with a warning log. -/
def ThreadPool.Submit (tp : ThreadPool) (receiverReady : Bool) : SubmitOutcome :=
  if tp.queueClosed then .panicked
  else if receiverReady then .delivered
  else .dropped

/-- Worker-pool statistics counters of ThreadPool, updated by each worker
under `tp.mu`. -/
structure PoolCounters where
  activeWorkers : Int
  totalTasks : Int
  completedTasks : Int
  failedTasks : Int
deriving DecidableEq, Repr

/-- Counters of a freshly constructed pool. -/
def initialCounters : PoolCounters :=
  { activeWorkers := 0, totalTasks := 0, completedTasks := 0, failedTasks := 0 }

/-- The first locked update a worker performs on dequeuing a task:
`tp.activeWorkers++; tp.totalTasks++` under `tp.mu`. -/
def workerBegin (c : PoolCounters) : PoolCounters :=
  { c with activeWorkers := c.activeWorkers + 1, totalTasks := c.totalTasks + 1 }

/-- The second locked update a worker performs after `task.Execute(ctx)`
returns: `tp.activeWorkers--` and, depending on the returned error, either
`tp.failedTasks++` or `tp.completedTasks++`, all under `tp.mu`. -/
def workerEnd (c : PoolCounters) (failed : Bool) : PoolCounters :=
  if failed then
    { c with activeWorkers := c.activeWorkers - 1, failedTasks := c.failedTasks + 1 }
  else
    { c with activeWorkers := c.activeWorkers - 1, completedTasks := c.completedTasks + 1 }

/-- One atomic (lock-protected) transition of the pool's counters. -/
inductive PoolStep : PoolCounters → PoolCounters → Prop where
  | beginStep (c : PoolCounters) : PoolStep c (workerBegin c)
  | endStep (c : PoolCounters) (failed : Bool) : PoolStep c (workerEnd c failed)

/-- Counter states reachable from a fresh pool by worker transitions, i.e.
the states observable while no worker holds the lock mid-transition. -/
inductive ReachableCounters : PoolCounters → Prop where
  | init : ReachableCounters initialCounters
  | step {c c' : PoolCounters} :
      ReachableCounters c → PoolStep c c' → ReachableCounters c'

/-- RestartManager state relevant to the concurrency guard (unnamed restart
source part): the `isRestarting` flag protected by `rm.mu`. -/
structure RestartManagerState where
  isRestarting : Bool
deriving DecidableEq, Repr

/-- ShutdownManager state relevant to the concurrency guard
(internal/shutdown/shutdown_manager.go): the `isShuttingDown` flag protected
by `sm.mu`. -/
structure ShutdownManagerState where
  isShuttingDown : Bool
deriving DecidableEq, Repr

/-- RestartManager.Restart: under the lock, an already-set `isRestarting`
flag makes it return the conflict error at once with the state untouched and
no sequence run; otherwise the flag is set, the restart sequence runs, and
the flag is cleared at the end.  The result is (returned error, final state,
whether a restart sequence was started). -/
def Restart (rm : RestartManagerState) :
    Except String Unit × RestartManagerState × Bool :=
  if rm.isRestarting then (.error "服务正在重启中", rm, false)
  else (.ok (), { isRestarting := false }, true)

/-- ShutdownManager.Shutdown concurrency guard, exactly as `Restart` but on
`isShuttingDown` with its own conflict error. -/
def Shutdown (sm : ShutdownManagerState) :
    Except String Unit × ShutdownManagerState × Bool :=
  if sm.isShuttingDown then (.error "服务正在关闭中", sm, false)
  else (.ok (), { isShuttingDown := false }, true)

/-- Active-task predicate used by ShutdownManager.waitForActiveTasks:
`task.Status == "running" || task.Status == "pending"`. -/
def isActiveTask (t : TaskInfo) : Bool :=
  t.status == "running" || t.status == "pending"

/-- The `activeTasks` count computed by waitForActiveTasks. -/
def countActiveTasks (tasks : List TaskInfo) : Nat :=
  tasks.countP isActiveTask

/-- ShutdownManager.waitForActiveTasks, as the number of seconds it blocks
before returning: with `activeTasks > 0` it executes `<-ctx.Done()` on a
context whose only deadline is the 30-second timeout, so it blocks for the
whole `timeoutSecs` no matter when the active tasks actually finish (the
finish times are not consulted at all); with no active task it returns
immediately. -/
def waitForActiveTasksSecs (tasks : List TaskInfo) (timeoutSecs : Nat) : Nat :=
  if countActiveTasks tasks > 0 then timeoutSecs else 0

/-- State of the sandboxExecutor relevant to cleanup
(execution package, stored with config/hot_reload.go): whether `Init` has
set `se.config`, and the `taskDirectories map[string]string`. -/
structure SandboxExecutorState where
  hasConfig : Bool
  taskDirectories : List (String × String)
deriving DecidableEq, Repr

/-- CleanupTaskDirectory: errors when the executor is uninitialized; errors
with `任务目录不存在` when `taskID` has no entry in `taskDirectories`;
otherwise removes the directory (os.RemoveAll, assumed to succeed) and
deletes the map entry. -/
def CleanupTaskDirectory (se : SandboxExecutorState) (taskID : String) :
    Except String SandboxExecutorState :=
  if !se.hasConfig then .error "沙盒执行器未初始化"
  else
    match se.taskDirectories.find? (fun p => p.1 == taskID) with
    | none => .error ("任务目录不存在: " ++ taskID)
    | some _ =>
        .ok { se with
              taskDirectories := se.taskDirectories.filter (fun p => !(p.1 == taskID)) }

/-- Test fixture: a task record with the given ID and status and zeroed
remaining fields. -/
def mkTask (id status : String) : TaskInfo :=
  { id := id, name := id, status := status, progress := 0, createdAt := 0,
    startedAt := 0, completedAt := 0, duration := 0, workerID := 0,
    error := "", result := "" }

theorem lookupTask_setTask (tasks : Registry) (taskID : String) (t v : TaskInfo)
    (h : lookupTask tasks taskID = some t) :
    lookupTask (setTask tasks taskID v) taskID = some v := by
  induction tasks with
  | nil => simp [lookupTask] at h
  | cons p rest ih =>
      by_cases hk : p.1 == taskID
      · simp [lookupTask, setTask, hk]
      · have h' : lookupTask rest taskID = some t := by
          simpa [lookupTask, hk] using h
        simpa [lookupTask, setTask, hk] using ih h'

/-- C9: RetryTask on a registered task sets Status to pending, Progress to 0,
clears Error, Result, CompletedAt and Duration, and leaves ID, Name,
CreatedAt, StartedAt and WorkerID unchanged — in particular StartedAt still
holds the previous run's start time. -/
theorem retryTask_frame (tasks : Registry) (taskID : String) (t : TaskInfo)
    (h : lookupTask tasks taskID = some t) :
    ∃ tasks', RetryTask tasks taskID = .ok tasks' ∧
      ∃ t', lookupTask tasks' taskID = some t' ∧
        t'.status = "pending" ∧ t'.progress = 0 ∧ t'.error = "" ∧
        t'.result = "" ∧ t'.completedAt = 0 ∧ t'.duration = 0 ∧
        t'.id = t.id ∧ t'.name = t.name ∧ t'.createdAt = t.createdAt ∧
        t'.startedAt = t.startedAt ∧ t'.workerID = t.workerID := by
  have hs : RetryTask tasks taskID = .ok (setTask tasks taskID
      { t with status := "pending", progress := 0, error := "", result := "",
               completedAt := 0, duration := 0 }) := by
    unfold RetryTask
    rw [h]
  exact ⟨_, hs, _, lookupTask_setTask tasks taskID t _ h,
    rfl, rfl, rfl, rfl, rfl, rfl, rfl, rfl, rfl, rfl, rfl⟩

theorem retryTask_frame_witness :
    ∃ tasks', RetryTask [("t1", mkTask "t1" "completed")] "t1" = .ok tasks' ∧
      ∃ t', lookupTask tasks' "t1" = some t' ∧
        t'.status = "pending" ∧ t'.progress = 0 ∧ t'.error = "" ∧
        t'.result = "" ∧ t'.completedAt = 0 ∧ t'.duration = 0 ∧
        t'.id = (mkTask "t1" "completed").id ∧
        t'.name = (mkTask "t1" "completed").name ∧
        t'.createdAt = (mkTask "t1" "completed").createdAt ∧
        t'.startedAt = (mkTask "t1" "completed").startedAt ∧
        t'.workerID = (mkTask "t1" "completed").workerID :=
  retryTask_frame [("t1", mkTask "t1" "completed")] "t1" (mkTask "t1" "completed") rfl

/-- C1: CancelTask on an unknown ID does return the not-found error, but on
an already-completed task it is not a no-op: the code forces Status to
cancelled and overwrites CompletedAt with time.Now() (here 42) and Duration
with now - CreatedAt, losing the previous completion timestamp 5. -/
theorem cancelTask_terminal_not_noop :
    (CancelTask [] 42 "missing" = .error "任务 missing 不存在") ∧
    (CancelTask
        [("t1", { mkTask "t1" "completed" with completedAt := 5, duration := 5 })]
        42 "t1"
      = .ok [("t1", { mkTask "t1" "cancelled" with completedAt := 42, duration := 42 })]) := by
  exact ⟨rfl, rfl⟩

theorem foldl_statsStep_totalTasks (l : List TaskInfo) (init : TaskStats) :
    (l.foldl statsStep init).totalTasks = init.totalTasks := by
  induction l generalizing init with
  | nil => rfl
  | cons t l ih =>
      rw [List.foldl_cons, ih]
      unfold statsStep
      split_ifs <;> rfl

theorem foldl_statsStep_activeTasks (l : List TaskInfo) (init : TaskStats) :
    (l.foldl statsStep init).activeTasks
      = init.activeTasks + l.countP (fun t => t.status == "running") := by
  induction l generalizing init with
  | nil => simp
  | cons t l ih =>
      rw [List.foldl_cons, ih, List.countP_cons]
      unfold statsStep
      split_ifs <;> simp_all <;> omega

theorem foldl_statsStep_completedTasks (l : List TaskInfo) (init : TaskStats) :
    (l.foldl statsStep init).completedTasks
      = init.completedTasks + l.countP (fun t => t.status == "completed") := by
  induction l generalizing init with
  | nil => simp
  | cons t l ih =>
      rw [List.foldl_cons, ih, List.countP_cons]
      unfold statsStep
      split_ifs <;> simp_all <;> omega

theorem foldl_statsStep_failedTasks (l : List TaskInfo) (init : TaskStats) :
    (l.foldl statsStep init).failedTasks
      = init.failedTasks + l.countP (fun t => t.status == "failed") := by
  induction l generalizing init with
  | nil => simp
  | cons t l ih =>
      rw [List.foldl_cons, ih, List.countP_cons]
      unfold statsStep
      split_ifs <;> simp_all <;> omega

theorem length_eq_status_partition (l : List TaskInfo) :
    l.length
      = l.countP (fun t => t.status == "running")
        + l.countP (fun t => t.status == "completed")
        + l.countP (fun t => t.status == "failed")
        + l.countP (fun t =>
            !(t.status == "running" || t.status == "completed" || t.status == "failed")) := by
  induction l with
  | nil => simp
  | cons t l ih =>
      simp only [List.length_cons, List.countP_cons, ih]
      by_cases h1 : t.status = "running" <;>
        by_cases h2 : t.status = "completed" <;>
          by_cases h3 : t.status = "failed" <;>
            simp_all <;> omega

/-- C10: GetTaskStats counts a task toward ActiveTasks, CompletedTasks or
FailedTasks exactly when its status is "running", "completed" or "failed"
respectively; TotalTasks is the registry size, which equals the three
counters plus the number of tasks in any other status, and is therefore at
least their sum. -/
theorem getTaskStats_partition (tasks : Registry) :
    (GetTaskStats tasks).activeTasks
        = (tasks.map Prod.snd).countP (fun t => t.status == "running") ∧
    (GetTaskStats tasks).completedTasks
        = (tasks.map Prod.snd).countP (fun t => t.status == "completed") ∧
    (GetTaskStats tasks).failedTasks
        = (tasks.map Prod.snd).countP (fun t => t.status == "failed") ∧
    (GetTaskStats tasks).totalTasks
        = (GetTaskStats tasks).activeTasks + (GetTaskStats tasks).completedTasks
          + (GetTaskStats tasks).failedTasks
          + (tasks.map Prod.snd).countP (fun t =>
              !(t.status == "running" || t.status == "completed" || t.status == "failed")) ∧
    (GetTaskStats tasks).activeTasks + (GetTaskStats tasks).completedTasks
        + (GetTaskStats tasks).failedTasks ≤ (GetTaskStats tasks).totalTasks := by
  have ha := foldl_statsStep_activeTasks (tasks.map Prod.snd)
    { totalTasks := tasks.length, activeTasks := 0, completedTasks := 0, failedTasks := 0 }
  have hc := foldl_statsStep_completedTasks (tasks.map Prod.snd)
    { totalTasks := tasks.length, activeTasks := 0, completedTasks := 0, failedTasks := 0 }
  have hf := foldl_statsStep_failedTasks (tasks.map Prod.snd)
    { totalTasks := tasks.length, activeTasks := 0, completedTasks := 0, failedTasks := 0 }
  have ht := foldl_statsStep_totalTasks (tasks.map Prod.snd)
    { totalTasks := tasks.length, activeTasks := 0, completedTasks := 0, failedTasks := 0 }
  have hp := length_eq_status_partition (tasks.map Prod.snd)
  have hlen : (tasks.map Prod.snd).length = tasks.length := List.length_map _ _
  unfold GetTaskStats
  rw [ha, hc, hf, ht]
  simp only [Nat.zero_add]
  refine ⟨by trivial, by trivial, by trivial, ?_, ?_⟩ <;> omega

/-- C5: in every counter state reachable from a fresh pool by the workers'
two locked updates (active+1 and total+1 together before execution; active-1
together with exactly one of completed+1 or failed+1 after execution), the
pool invariant totalTasks = activeWorkers + completedTasks + failedTasks
holds. -/
theorem pool_counters_invariant (c : PoolCounters) (h : ReachableCounters c) :
    c.totalTasks = c.activeWorkers + c.completedTasks + c.failedTasks := by
  induction h with
  | init => rfl
  | step _ hstep ih =>
      cases hstep with
      | beginStep => simp only [workerBegin]; omega
      | endStep f => cases f <;> simp only [workerEnd] <;> simp <;> omega

theorem pool_counters_invariant_witness :
    (workerEnd (workerBegin initialCounters) false).totalTasks
      = (workerEnd (workerBegin initialCounters) false).activeWorkers
        + (workerEnd (workerBegin initialCounters) false).completedTasks
        + (workerEnd (workerBegin initialCounters) false).failedTasks :=
  pool_counters_invariant _
    (ReachableCounters.step
      (ReachableCounters.step ReachableCounters.init (PoolStep.beginStep _))
      (PoolStep.endStep _ false))

/-- C6: when a restart (resp. shutdown) sequence is already in progress, a
second Restart (resp. Shutdown) call returns the explicit in-progress error
immediately, leaves the manager state unchanged, and starts no second
sequence. -/
theorem lifecycle_conflict_rejected (rm : RestartManagerState)
    (sm : ShutdownManagerState)
    (hr : rm.isRestarting = true) (hs : sm.isShuttingDown = true) :
    Restart rm = (.error "服务正在重启中", rm, false) ∧
    Shutdown sm = (.error "服务正在关闭中", sm, false) := by
  constructor
  · simp [Restart, hr]
  · simp [Shutdown, hs]

theorem lifecycle_conflict_rejected_witness :
    Restart { isRestarting := true }
        = (.error "服务正在重启中", { isRestarting := true }, false) ∧
    Shutdown { isShuttingDown := true }
        = (.error "服务正在关闭中", { isShuttingDown := true }, false) :=
  lifecycle_conflict_rejected { isRestarting := true } { isShuttingDown := true } rfl rfl

/-- C7: NewThreadPool with maxWorkers <= 0 fails synchronously with the
validation error and returns no pool value; moreover no successful
construction ever has a worker goroutine running (workers are spawned only
by Start). -/
theorem newThreadPool_rejects_nonpositive (mw t : Int) (h : mw ≤ 0) :
    NewThreadPool mw t = .error "最大工作线程数必须大于0" ∧
    (∀ tp : ThreadPool, NewThreadPool mw t ≠ .ok tp) ∧
    (∀ mw' t' : Int, ∀ tp : ThreadPool,
        NewThreadPool mw' t' = .ok tp → tp.spawnedWorkers = 0) := by
  refine ⟨by simp [NewThreadPool, h], ?_, ?_⟩
  · intro tp hcontra
    simp [NewThreadPool, h] at hcontra
  · intro mw' t' tp hok
    unfold NewThreadPool at hok
    split at hok
    · exact absurd hok (by simp)
    · cases hok
      rfl

theorem newThreadPool_rejects_nonpositive_witness :
    NewThreadPool 0 5 = .error "最大工作线程数必须大于0" ∧
    (∀ tp : ThreadPool, NewThreadPool 0 5 ≠ .ok tp) ∧
    (∀ mw' t' : Int, ∀ tp : ThreadPool,
        NewThreadPool mw' t' = .ok tp → tp.spawnedWorkers = 0) :=
  newThreadPool_rejects_nonpositive 0 5 (by decide)

/-- C2 counterexample: a freshly started pool (running = true, queue open)
whose workers are all busy — no receiver ready on the unbuffered queue —
drops the submitted task instead of blocking: Submit takes the select's
default branch, so the claim's "blocking send that never drops" is false on
this code. -/
theorem submit_drops_when_no_receiver :
    (NewThreadPool 2 5).map
        (fun p => (p.Start.running, p.Start.Submit false))
      = .ok (true, .dropped) ∧
    SubmitOutcome.dropped ≠ SubmitOutcome.delivered := by
  exact ⟨rfl, by simp⟩

/-- C2 amended: while the task queue is open, Submit is a non-blocking
select send — the task is enqueued exactly when a worker is ready to receive
it at that instant, and otherwise it is dropped (with a warning log, no
error returned); it never blocks and never panics while the queue is open. -/
theorem submit_nonblocking_select (tp : ThreadPool) (receiverReady : Bool)
    (h : tp.queueClosed = false) :
    tp.Submit receiverReady
      = (if receiverReady then SubmitOutcome.delivered else SubmitOutcome.dropped) := by
  simp [ThreadPool.Submit, h]

theorem submit_nonblocking_select_witness :
    ThreadPool.Submit
        { maxWorkers := 2, taskTimeout := 5, running := true,
          queueClosed := false, spawnedWorkers := 2 } true
      = (if true then SubmitOutcome.delivered else SubmitOutcome.dropped) :=
  submit_nonblocking_select
    { maxWorkers := 2, taskTimeout := 5, running := true,
      queueClosed := false, spawnedWorkers := 2 } true rfl

/-- C3: after Stop has closed the task queue, Submit's select chooses the
send case on the closed channel and panics (Go semantics of sending on a
closed channel), whichever readiness the workers had — the call is not
rejected gracefully. -/
theorem submit_after_stop_panics :
    (NewThreadPool 2 5).map (fun p => (p.Start.Stop).Submit true)
        = .ok .panicked ∧
    (NewThreadPool 2 5).map (fun p => (p.Start.Stop).Submit false)
        = .ok .panicked := by
  exact ⟨rfl, rfl⟩

/-- C4: with three active (running) tasks and the 30-second timeout,
waitForActiveTasks blocks on ctx.Done() for the whole 30 seconds; the model
takes no task-completion times at all, because the code never re-checks task
state, so it returns at the timeout even when every task finished long
before (and returns immediately only when no task was active at entry). -/
theorem waitForActiveTasks_waits_full_timeout :
    countActiveTasks
        [mkTask "a" "running", mkTask "b" "running", mkTask "c" "running"] = 3 ∧
    waitForActiveTasksSecs
        [mkTask "a" "running", mkTask "b" "running", mkTask "c" "running"] 30 = 30 ∧
    waitForActiveTasksSecs [mkTask "a" "completed"] 30 = 0 := by
  exact ⟨rfl, rfl, rfl⟩

/-- C8: CleanupTaskDirectory is not idempotent: on an initialized executor
whose directory record for "t1" is absent it returns the directory-not-found
error instead of succeeding, and calling it twice in a row for the same ID
succeeds the first time and errors the second. -/
theorem cleanupTaskDirectory_missing_errors :
    (CleanupTaskDirectory { hasConfig := true, taskDirectories := [] } "t1"
        = .error "任务目录不存在: t1") ∧
    (CleanupTaskDirectory
        { hasConfig := true, taskDirectories := [("t1", "/sandbox/tasks/t1")] } "t1"
        = .ok { hasConfig := true, taskDirectories := [] }) ∧
    ((CleanupTaskDirectory
        { hasConfig := true, taskDirectories := [("t1", "/sandbox/tasks/t1")] } "t1").bind
          (fun se => CleanupTaskDirectory se "t1")
        = .error "任务目录不存在: t1") := by
  exact ⟨rfl, rfl, rfl⟩

end FileFlow
